import Mathlib

/-!
# Verification of the heatmap layer sync pipeline

A shallow embedding, in Lean 4, of the two JavaScript source files

  * `x-pack/plugins/gis/public/shared/layers/heatmap_layer.js`
  * `x-pack/plugins/gis/public/shared/layers/sources/es_geohashgrid_source.js`

together with theorems settling the frozen claims about them. Pure JS
functions become Lean functions; JS `undefined` becomes `Option`; the JS
number special values reachable here (`NaN`, `Infinity`) are modelled by an
explicit sum type; external collaborators (index-pattern service, search
backend, inspection sink) become an explicit environment record, and the
calls made into the inspection sink are returned as an explicit trace.
-/

/-! ## JS numbers, features, and the weight-normalization pass

`syncLayerWithMB` (heatmap_layer.js) reads `feature.properties['doc_count']`
for every feature of the cached FeatureCollection. `doc_count` is the
document count of an Elasticsearch bucket, a non-negative integer, so the
source property is modelled as `ℕ`. The normalized weight written back is
the JS quotient `doc_count / max`, which for non-negative operands is a
finite non-negative number, `NaN` (for `0 / 0`) or `Infinity` (for
`v / 0` with `v > 0`); `JsNum` models exactly those outcomes. -/

/-- Result of a JS floating-point division with non-negative operands:
a finite value, `NaN`, or `Infinity`. -/
inductive JsNum where
  | num (q : ℚ)
  | nan
  | posInf
deriving DecidableEq, Repr

/-- JS division `a / b` for non-negative integer operands: `0 / 0` is `NaN`,
`v / 0` with `v > 0` is `Infinity`, otherwise the exact rational quotient
(every quotient of doc counts occurring here is exactly representable). -/
def jsDivNat (a b : ℕ) : JsNum :=
  if b = 0 then (if a = 0 then JsNum.nan else JsNum.posInf)
  else JsNum.num ((a : ℚ) / (b : ℚ))

/-- A feature of the cached FeatureCollection as the normalization pass sees
it: only the source property `properties['doc_count']` is read. -/
structure Feature where
  doc_count : ℕ
deriving DecidableEq, Repr

/-- A feature after the normalization pass: the original `doc_count` plus the
weight written to `properties['__kbn_heatmap_weight__']`. -/
structure NormalizedFeature where
  doc_count : ℕ
  kbn_heatmap_weight : JsNum
deriving DecidableEq, Repr

/-- The first loop of the normalization pass in `syncLayerWithMB`
(heatmap_layer.js): `let max = 0; for (...) max =
Math.max(features[i].properties['doc_count'], max);`. -/
def collectionMax (fs : List Feature) : ℕ :=
  fs.foldl (fun m f => max f.doc_count m) 0

/-- The second loop of the normalization pass in `syncLayerWithMB`
(heatmap_layer.js): for every feature, unconditionally,
`features[i].properties['__kbn_heatmap_weight__'] =
features[i].properties['doc_count'] / max;` — note the source has no
`max > 0` branch around the division. -/
def normalizeWeights (fs : List Feature) : List NormalizedFeature :=
  fs.map fun f => ⟨f.doc_count, jsDivNat f.doc_count (collectionMax fs)⟩

/-! ## Zoom-to-precision mapping

`syncData` (heatmap_layer.js, line 98) computes

  `ZOOM_TO_PRECISION[Math.round(dataFilters.zoom)] +
   this._style.getPrecisionRefinementDelta()`

`ZOOM_TO_PRECISION` lives in `utils/zoom_to_precision.js`, which is not
among the repository files, so the table is modelled from the spec; the
call site (rounding, lookup, addition) is translated from the source. The
style's refinement delta is an integer supplied by the style collaborator
and is passed as a parameter. -/

/-- Modelled from the spec: the base-precision table of
`utils/zoom_to_precision.js` (not among the repository files). Per the
spec it is "a fixed table mapping integer zoom levels 0..N to a base
precision (monotonically non-decreasing with zoom, capped at the backend's
maximum supported grid precision)"; one representative such table for zoom
levels 0..21 with geohash precisions 1..12. -/
def zoomPrecisionTable : List ℕ :=
  [1, 2, 2, 2, 3, 3, 4, 4, 5, 5, 6, 6, 7, 7, 8, 8, 9, 9, 10, 10, 11, 12]

/-- The backend's maximum supported geohash grid precision; the valid
precision range is `1..MAX_GEOHASH_PRECISION`. -/
def MAX_GEOHASH_PRECISION : ℕ := 12

/-- Modelled from the spec: the `ZOOM_TO_PRECISION` lookup of
`utils/zoom_to_precision.js` (not among the repository files), as a total
function; per the spec, "out-of-range zoom clamps to nearest defined
entry". Negative indices clamp to entry 0, indices above 21 to entry 21. -/
def ZOOM_TO_PRECISION (z : ℤ) : ℕ :=
  zoomPrecisionTable.getD (min z.toNat 21) 1

/-- JS `Math.round`: rounds to the nearest integer, halves toward `+∞`. -/
def jsRound (q : ℚ) : ℤ := ⌊q + 1 / 2⌋

/-- The precision computed by `syncData` (heatmap_layer.js, line 98):
`ZOOM_TO_PRECISION[Math.round(dataFilters.zoom)] + delta`, where `delta` is
`this._style.getPrecisionRefinementDelta()`. The sum is used as is — the
source applies no clamp to it. -/
def targetPrecision (zoom : ℚ) (delta : ℤ) : ℤ :=
  (ZOOM_TO_PRECISION (jsRound zoom) : ℤ) + delta

/-- The precision computation as the spec's words describe it, for
comparison with `targetPrecision`: "The result is
`basePrecision[roundedZoom] + refinementDelta`, clamped to the backend's
valid precision range." -/
def precisionSpecClamped (zoom : ℚ) (delta : ℤ) : ℤ :=
  max 1 (min (MAX_GEOHASH_PRECISION : ℤ) (targetPrecision zoom delta))

/-! ## Viewport state, fetch metadata, and the sync decision

`syncData` (heatmap_layer.js) compares the previous fetch's metadata with
the current `dataFilters` and decides whether to fetch. `dataFilters`
carries the viewport state; the previous metadata is
`sourceDataRequest ? sourceDataRequest.getMeta() : {}` — an object whose
fields may all be `undefined`, modelled by `Option` fields. The new
metadata written on fetch is `{ ...dataFilters, precision: targetPrecision }`
(the spread also copies `zoom`, which no later comparison reads and which
is therefore omitted from the `DataMeta` model). -/

/-- An axis-aligned geographic bounding rectangle (the map buffer). -/
structure Extent where
  minLon : ℚ
  minLat : ℚ
  maxLon : ℚ
  maxLat : ℚ
deriving DecidableEq, Repr

/-- A time range, compared by lodash deep equality (`_.isEqual`), which on
plain records is structural equality. -/
structure TimeFilters where
  fromExpr : String
  toExpr : String
deriving DecidableEq, Repr

/-- The `dataFilters` argument of `syncData`: the current viewport state.
`buffer` is absent until the map has rendered; `refreshTimerLastTriggeredAt`
is absent until a refresh timer has fired. -/
structure DataFilters where
  zoom : ℚ
  buffer : Option Extent
  timeFilters : TimeFilters
  refreshTimerLastTriggeredAt : Option ℕ
deriving DecidableEq, Repr

/-- The previous fetch's metadata as `syncData` reads it. When no source
data request exists the code uses the empty object `{}`, whose every field
reads as `undefined`: `emptyMeta`. -/
structure DataMeta where
  precision : Option ℤ
  timeFilters : Option TimeFilters
  refreshTimerLastTriggeredAt : Option ℕ
  buffer : Option Extent
deriving DecidableEq, Repr

/-- The empty object `{}` used when no previous source data request exists. -/
def emptyMeta : DataMeta :=
  { precision := none, timeFilters := none,
    refreshTimerLastTriggeredAt := none, buffer := none }

/-- `newDataMeta = { ...dataFilters, precision: targetPrecision }`
(heatmap_layer.js, `syncData`). -/
def nextMetadata (df : DataFilters) (delta : ℤ) : DataMeta :=
  { precision := some (targetPrecision df.zoom delta),
    timeFilters := some df.timeFilters,
    refreshTimerLastTriggeredAt := df.refreshTimerLastTriggeredAt,
    buffer := df.buffer }

/-- JS truthiness of `dataFilters.refreshTimerLastTriggeredAt` as used in
`dataFilters.refreshTimerLastTriggeredAt && ...`: `undefined` is falsy and
the number `0` is falsy; every other timestamp is truthy. -/
def jsTruthyTick (t : Option ℕ) : Bool :=
  match t with
  | none => false
  | some v => v != 0

/-- Whether `prevBuffer` covers `currentBuffer` (rectangle containment). -/
def extentContains (prevBuffer currentBuffer : Extent) : Bool :=
  decide (prevBuffer.minLon ≤ currentBuffer.minLon) &&
  decide (prevBuffer.minLat ≤ currentBuffer.minLat) &&
  decide (currentBuffer.maxLon ≤ prevBuffer.maxLon) &&
  decide (currentBuffer.maxLat ≤ prevBuffer.maxLat)

/-- Modelled from the spec: `ALayer.updateDueToExtent` (layer.js, not among
the repository files), called by `syncData` as
`this.updateDueToExtent(this._source, dataMeta, dataFilters)`. Per the
spec, a refetch is due when "the current bounding extent is not already
covered by the previous fetch's extent (extent-containment check)"; with no
previously fetched extent the current extent is not covered. `syncData`
calls it only after checking `dataFilters.buffer` is present, so the
current buffer is a plain `Extent` here. -/
def updateDueToExtent (meta : DataMeta) (currentBuffer : Extent) : Bool :=
  match meta.buffer with
  | none => true
  | some prevBuffer => !(extentContains prevBuffer currentBuffer)

/-- The refetch decision of `syncData` (heatmap_layer.js): the code returns
early (no fetch) when
`isSamePrecision && isSameTime && !updateDueToExtent && !updateDueToRefreshTimer`;
this is the negation of that guard, i.e. `true` means fetch. The three
comparisons are translated clause by clause:
`isSamePrecision = dataMeta.precision === targetPrecision` (strict equality
with a possibly-`undefined` field), `isSameTime = _.isEqual(dataMeta.timeFilters,
dataFilters.timeFilters)`, and `updateDueToRefreshTimer =
dataFilters.refreshTimerLastTriggeredAt &&
!_.isEqual(dataMeta.refreshTimerLastTriggeredAt, dataFilters.refreshTimerLastTriggeredAt)`. -/
def shouldRefetch (meta : DataMeta) (df : DataFilters) (currentBuffer : Extent)
    (delta : ℤ) : Bool :=
  let isSamePrecision := meta.precision == some (targetPrecision df.zoom delta)
  let isSameTime := meta.timeFilters == some df.timeFilters
  let dueToRefreshTimer := jsTruthyTick df.refreshTimerLastTriggeredAt &&
    !(meta.refreshTimerLastTriggeredAt == df.refreshTimerLastTriggeredAt)
  let dueToExtent := updateDueToExtent meta currentBuffer
  !(isSamePrecision && isSameTime && !dueToExtent && !dueToRefreshTimer)

/-- What one `syncData` invocation does: return without fetching, or fetch
with the given new metadata. -/
inductive SyncAction where
  | skip
  | fetch (newMeta : DataMeta)
deriving DecidableEq, Repr

/-- `syncData` (heatmap_layer.js): returns early when the layer is not
visible or not shown at the current zoom level
(`!this.isVisible() || !this.showAtZoomLevel(dataFilters.zoom)`), when
`dataFilters.buffer` is absent, or when the refetch decision is negative;
otherwise calls `_fetchNewData` with `newDataMeta`. `isVisible` and
`showAtZoomLevel` are `ALayer` methods (layer.js, not among the repository
files) and enter as the booleans they return. -/
def syncData (isVisible showAtZoomLevel : Bool) (df : DataFilters)
    (prev : Option DataMeta) (delta : ℤ) : SyncAction :=
  if !isVisible || !showAtZoomLevel then SyncAction.skip
  else
    match df.buffer with
    | none => SyncAction.skip
    | some buffer =>
      if shouldRefetch (prev.getD emptyMeta) df buffer delta then
        SyncAction.fetch (nextMetadata df delta)
      else SyncAction.skip

/-- The refetch decision as the claim states it, for comparison with
`shouldRefetch`: the disjunction of "no previous fetch metadata exists",
"the computed precision differs from the previous precision", "the current
time range is not deeply equal to the previous one", "a refresh-timer tick
is present and differs from the previous one", and "the current extent is
not covered by the previously fetched extent". -/
def claimRefetch (prev : Option DataMeta) (df : DataFilters)
    (currentBuffer : Extent) (delta : ℤ) : Prop :=
  prev = none ∨
    ∃ m, prev = some m ∧
      (m.precision ≠ some (targetPrecision df.zoom delta) ∨
       m.timeFilters ≠ some df.timeFilters ∨
       (df.refreshTimerLastTriggeredAt.isSome = true ∧
         m.refreshTimerLastTriggeredAt ≠ df.refreshTimerLastTriggeredAt) ∨
       ¬ ∃ p, m.buffer = some p ∧ extentContains p currentBuffer = true)

/-! ## The ES geohash-grid source: aggregation configs, filters, fetch

`getGeoJsonPointsWithTotalCount` (es_geohashgrid_source.js) resolves the
index pattern and geo field, builds the aggregation configs and the search
source, reports to the request-inspection sink, runs the search, and
converts the response to GeoJSON. Its external collaborators enter as an
environment record (`SourceEnv`); the calls made into the inspection sink
are returned as a trace (`List SinkCall`). -/

/-- The source descriptor of an `ESGeohashGridSource`:
`{ indexPatternId, geoField }`. -/
structure SourceDescriptor where
  indexPatternId : String
  geoField : String
deriving DecidableEq, Repr

/-- What the embedding needs of an index pattern returned by
`indexPatternService.get`: its title and its field names
(`indexPattern.fields.byName` holds an entry per field name). -/
structure IndexPattern where
  title : String
  fieldNames : List String
deriving DecidableEq, Repr

/-- The argument object of `getGeoJsonPointsWithTotalCount`:
`{ precision, extent, timeFilters, layerId, layerName }`. A caller that
omits a key leaves that parameter `undefined`, so `layerId` is an
`Option`. -/
structure GeoJsonRequestArgs where
  precision : ℤ
  extent : Extent
  timeFilters : TimeFilters
  layerId : Option String
  layerName : String
deriving DecidableEq, Repr

/-- The behaviour of the external collaborators during one fetch:
whether `indexPatternService.get` resolves (and to what), whether some step
of the inner `try` block throws before `inspectorAdapters.requests.start`
has assigned `inspectorRequest` (e.g. `new SearchSource()` or a `setField`
call), whether `searchSource.fetch()` rejects (and with what message), and
the feature collection the response converts to on success. -/
structure SourceEnv where
  indexPatternLookup : Option IndexPattern
  searchSourceSetupError : Option String
  fetchError : Option String
  responseFeatures : List Feature
deriving DecidableEq, Repr

/-- A JS error value: `jsError` for `new Error(message)` thrown by the
source's own code, `typeError` for the `TypeError` JS raises when a
property of `undefined` is accessed. -/
inductive JsError where
  | jsError (message : String)
  | typeError (message : String)
deriving DecidableEq, Repr

/-- `error.message`. -/
def JsError.message : JsError → String
  | JsError.jsError m => m
  | JsError.typeError m => m

/-- How one call of `getGeoJsonPointsWithTotalCount` ends: resolving with a
feature collection, or rejecting with an error. -/
inductive FetchOutcome where
  | success (data : List Feature)
  | failure (err : JsError)
deriving DecidableEq, Repr

/-- One call into the request-inspection sink (`inspectorAdapters.requests`
and the request handle it returns). -/
inductive SinkCall where
  | resetRequest (layerId : Option String)
  | startCall (layerId : Option String) (layerName : String)
  | statsCall
  | okCall
  | errorCall
deriving DecidableEq, Repr

/-- The message of the `TypeError` JS raises when the `catch` block of
`getGeoJsonPointsWithTotalCount` evaluates `inspectorRequest.error({ error })`
while `inspectorRequest` is still `undefined`. -/
def undefinedInspectorRequestMessage : String :=
  "Cannot read properties of undefined (reading error)"

/-- The message wrapping a failure of `indexPatternService.get`:
"Unable to find Index pattern ${this._descriptor.indexPatternId}". -/
def indexPatternErrorMessage (desc : SourceDescriptor) : String :=
  "Unable to find Index pattern " ++ desc.indexPatternId

/-- The message thrown when the geo field is gone: "Index pattern
${indexPattern.title} no longer contains the geo field
${this._descriptor.geoField}". -/
def geoFieldErrorMessage (desc : SourceDescriptor) (ip : IndexPattern) : String :=
  "Index pattern " ++ ip.title ++ " no longer contains the geo field " ++
    desc.geoField

/-- The message wrapping a search failure: "Elasticsearch search request
failed, error: ${error.message}". -/
def searchFailedMessage (backendMessage : String) : String :=
  "Elasticsearch search request failed, error: " ++ backendMessage

/-- `getGeoJsonPointsWithTotalCount` (es_geohashgrid_source.js), returning
its outcome together with the trace of inspection-sink calls. Steps, in
source order:
1. `inspectorAdapters.requests.resetRequest(layerId)`;
2. `indexPatternService.get(this._descriptor.indexPatternId)` in a
   `try`/`catch` that rethrows `new Error("Unable to find Index pattern …")`;
3. `indexPattern.fields.byName[this._descriptor.geoField]`, throwing
   `new Error("Index pattern … no longer contains the geo field …")` when
   absent;
4. the inner `try`: search-source construction and `setField` calls, then
   `inspectorRequest = inspectorAdapters.requests.start(layerId, layerName)`
   and `inspectorRequest.stats(...)`, then `await searchSource.fetch()`,
   then response stats and `.ok`. Its `catch` runs
   `inspectorRequest.error({ error })` first — so when the throw happened
   before `inspectorRequest` was assigned (`searchSourceSetupError`), that
   statement itself throws a `TypeError` on `undefined`, and the wrapped
   `new Error("Elasticsearch search request failed, …")` on the next line is
   never created; the `TypeError` propagates to the caller instead.
The unawaited `searchSource.getSearchRequestBody().then(...)` side channel
and the pure response conversion (`tabifyAggResponse`, `convertToGeoJson`)
are outside the decided claims; the converted collection enters through
`env.responseFeatures`. -/
def getGeoJsonPointsWithTotalCount (desc : SourceDescriptor)
    (args : GeoJsonRequestArgs) (env : SourceEnv) :
    FetchOutcome × List SinkCall :=
  let trace0 := [SinkCall.resetRequest args.layerId]
  match env.indexPatternLookup with
  | none => (FetchOutcome.failure (JsError.jsError (indexPatternErrorMessage desc)), trace0)
  | some ip =>
    if desc.geoField ∈ ip.fieldNames then
      match env.searchSourceSetupError with
      | some _ =>
        (FetchOutcome.failure (JsError.typeError undefinedInspectorRequestMessage), trace0)
      | none =>
        let trace1 := trace0 ++ [SinkCall.startCall args.layerId args.layerName,
          SinkCall.statsCall]
        match env.fetchError with
        | some msg =>
          (FetchOutcome.failure (JsError.jsError (searchFailedMessage msg)),
            trace1 ++ [SinkCall.errorCall])
        | none =>
          (FetchOutcome.success env.responseFeatures,
            trace1 ++ [SinkCall.statsCall, SinkCall.okCall])
    else
      (FetchOutcome.failure (JsError.jsError (geoFieldErrorMessage desc ip)), trace0)

/-- The parameters of the geohash-grid bucket aggregation built by
`_makeAggConfigs` (es_geohashgrid_source.js). -/
structure GridAggParams where
  field : String
  isFilteredByCollar : Bool
  useGeocentroid : Bool
  autoPrecision : Bool
  precision : ℤ
deriving DecidableEq, Repr

/-- One aggregation config object of `_makeAggConfigs`: the metric config
carries the empty `params: {}` (`params = none`); the grid config carries
`GridAggParams`. -/
structure AggConfigSpec where
  id : String
  enabled : Bool
  type : String
  schema : String
  params : Option GridAggParams
deriving DecidableEq, Repr

/-- `_makeAggConfigs(precision)` (es_geohashgrid_source.js): exactly two
configs — the count metric, and the geohash grid bucket on
`this._descriptor.geoField` with `isFilteredByCollar: false`,
`useGeocentroid: true`, `autoPrecision: false` and the caller's
`precision`. -/
def makeAggConfigs (geoField : String) (precision : ℤ) : List AggConfigSpec :=
  [{ id := "1", enabled := true, type := "count", schema := "metric",
     params := none },
   { id := "2", enabled := true, type := "geohash_grid", schema := "segment",
     params := some { field := geoField, isFilteredByCollar := false,
                      useGeocentroid := true, autoPrecision := false,
                      precision := precision } }]

/-- A query filter: the spatial extent filter built by
`createExtentFilter(extent, geoField.name, geoField.type)` or the time
filter built by `timeService.createFilter(indexPattern, timeFilters)`
(both builders are external collaborators, kept opaque). -/
inductive QueryFilter where
  | extentFilter (extent : Extent) (fieldName : String) (fieldType : String)
  | timeFilter (indexPatternTitle : String) (timeFilters : TimeFilters)
deriving DecidableEq, Repr

/-- The filter list the source installs on the search source
(es_geohashgrid_source.js, the `setField('filter', ...)` callback): it
pushes the extent filter, then the time filter. -/
def searchFilters (extent : Extent) (geoFieldName geoFieldType : String)
    (indexPatternTitle : String) (tf : TimeFilters) : List QueryFilter :=
  [QueryFilter.extentFilter extent geoFieldName geoFieldType,
   QueryFilter.timeFilter indexPatternTitle tf]

/-- The argument object `_fetchNewData` (heatmap_layer.js) passes to
`this._source.getGeoJsonPointsWithTotalCount`: `{ precision, extent:
buffer, timeFilters, layerName }` — no `layerId` key, so the source
receives `layerId` as `undefined`. -/
def heatmapFetchArgs (precision : ℤ) (buffer : Extent) (tf : TimeFilters)
    (layerName : String) : GeoJsonRequestArgs :=
  { precision := precision, extent := buffer, timeFilters := tf,
    layerId := none, layerName := layerName }

/-- What `_fetchNewData` reports outward: `stopLoading('source', token,
data)` on success, `onLoadError('source', token, error.message)` on any
error its `try`/`catch` caught. -/
inductive LoadResult where
  | stopLoading (data : List Feature)
  | onLoadError (message : String)
deriving DecidableEq, Repr

/-- `_fetchNewData` (heatmap_layer.js): awaits
`getGeoJsonPointsWithTotalCount` inside `try`/`catch`; every rejection is
caught and routed to the caller's `onLoadError` channel with
`error.message`. -/
def fetchNewData (desc : SourceDescriptor) (precision : ℤ) (buffer : Extent)
    (tf : TimeFilters) (layerName : String) (env : SourceEnv) : LoadResult :=
  match (getGeoJsonPointsWithTotalCount desc
      (heatmapFetchArgs precision buffer tf layerName) env).1 with
  | FetchOutcome.success data => LoadResult.stopLoading data
  | FetchOutcome.failure e => LoadResult.onLoadError e.message

/-- Concrete inputs used by the witness and counterexample theorems. -/
def demoFeatures : List Feature := [⟨1⟩, ⟨2⟩]

/-- A concrete time range. -/
def demoTF : TimeFilters := { fromExpr := "now-15m", toExpr := "now" }

/-- A concrete extent. -/
def demoExt : Extent := { minLon := -10, minLat := -10, maxLon := 10, maxLat := 10 }

/-- A concrete viewport state: zoom 3, buffer present, no refresh tick. -/
def demoDF : DataFilters :=
  { zoom := 3, buffer := some demoExt, timeFilters := demoTF,
    refreshTimerLastTriggeredAt := none }

/-- A concrete source descriptor. -/
def demoDesc : SourceDescriptor := { indexPatternId := "ip-1", geoField := "location" }

/-- A concrete index pattern containing `demoDesc`'s geo field. -/
def demoIP : IndexPattern := { title := "logstash", fieldNames := ["location", "ts"] }

/-- An environment in which search-source setup throws before the
inspection sink's `start` call has assigned `inspectorRequest`. -/
def demoEnvSetupFail : SourceEnv :=
  { indexPatternLookup := some demoIP, searchSourceSetupError := some "ctor failed",
    fetchError := none, responseFeatures := [] }

/-! ## Helper lemmas -/

/-- Bounds and attainment for the `Math.max` fold of the normalization
pass, generalized over the accumulator. -/
theorem foldl_max_bounds (fs : List Feature) (a : ℕ) :
    a ≤ fs.foldl (fun m f => max f.doc_count m) a ∧
    (∀ f ∈ fs, f.doc_count ≤ fs.foldl (fun m f => max f.doc_count m) a) ∧
    (fs.foldl (fun m f => max f.doc_count m) a = a ∨
      ∃ f ∈ fs, fs.foldl (fun m f => max f.doc_count m) a = f.doc_count) := by
  induction fs generalizing a with
  | nil => simp
  | cons g gs ih =>
    obtain ⟨h1, h2, h3⟩ := ih (max g.doc_count a)
    simp only [List.foldl_cons]
    refine ⟨le_trans (le_max_right _ _) h1, ?_, ?_⟩
    · intro f hf
      rcases List.mem_cons.mp hf with rfl | hf
      · exact le_trans (le_max_left _ _) h1
      · exact h2 f hf
    · rcases h3 with h | ⟨f, hf, hval⟩
      · rcases max_cases g.doc_count a with ⟨hm, _⟩ | ⟨hm, _⟩
        · exact Or.inr ⟨g, List.mem_cons_self g gs, by rw [h, hm]⟩
        · exact Or.inl (by rw [h, hm])
      · exact Or.inr ⟨f, List.mem_cons_of_mem _ hf, hval⟩

/-- Every feature's `doc_count` is bounded by the collection maximum. -/
theorem collectionMax_le (fs : List Feature) : ∀ f ∈ fs, f.doc_count ≤ collectionMax fs :=
  (foldl_max_bounds fs 0).2.1

/-- The collection maximum is zero or attained by some feature. -/
theorem collectionMax_cases (fs : List Feature) :
    collectionMax fs = 0 ∨ ∃ f ∈ fs, collectionMax fs = f.doc_count := by
  rcases (foldl_max_bounds fs 0).2.2 with h | ⟨f, hf, hval⟩
  · exact Or.inl h
  · exact Or.inr ⟨f, hf, hval⟩

/-- A positive collection maximum is attained by some feature. -/
theorem collectionMax_attained (fs : List Feature) (h : 0 < collectionMax fs) :
    ∃ f ∈ fs, f.doc_count = collectionMax fs := by
  rcases collectionMax_cases fs with h0 | ⟨f, hf, hval⟩
  · omega
  · exact ⟨f, hf, hval.symm⟩

/-- An extent covers itself. -/
theorem extentContains_self (e : Extent) : extentContains e e = true := by
  simp [extentContains]

/-- For a tick that is not the number `0`, JS truthiness is presence. -/
theorem jsTruthyTick_eq_isSome (t : Option ℕ) (h : t ≠ some 0) :
    jsTruthyTick t = t.isSome := by
  cases t with
  | none => rfl
  | some v =>
    have hv : v ≠ 0 := fun h0 => h (by rw [h0])
    simp [jsTruthyTick, hv]

/-- Every value of the modelled `ZOOM_TO_PRECISION` lookup lies within the
backend's valid precision range `1..MAX_GEOHASH_PRECISION`. -/
theorem ZOOM_TO_PRECISION_bounds (z : ℤ) :
    1 ≤ ZOOM_TO_PRECISION z ∧ ZOOM_TO_PRECISION z ≤ MAX_GEOHASH_PRECISION := by
  unfold ZOOM_TO_PRECISION
  have hk : min z.toNat 21 ≤ 21 := min_le_right _ _
  set k := min z.toNat 21 with hkdef
  clear hkdef
  interval_cases k <;> decide

/-! ## C1: zero-safety of the weight normalization -/

/-- C1, counterexample: the claim says a FeatureCollection whose every
feature has `doc_count` zero gets every normalized weight set to `0`, and
that normalization never produces `NaN`. On the one-feature collection with
`doc_count = 0` the code computes `max = 0` and then `0 / 0`, so the weight
written is `NaN`, not `0`. -/
theorem normalizeWeights_zero_collection_cex :
    normalizeWeights [⟨0⟩] = [⟨0, JsNum.nan⟩] ∧ JsNum.nan ≠ JsNum.num 0 := by
  exact ⟨rfl, by decide⟩

/-- C1, amended: the normalization divides by the collection maximum
unconditionally (the source has no `max > 0` branch). With `doc_count` a
non-negative integer the division never produces `Infinity` (a positive
numerator forces a positive maximum), but for a collection whose every
feature has `doc_count = 0` every feature's normalized weight is `NaN`
(`0 / 0`), not `0`; only the empty collection escapes vacuously. -/
theorem normalizeWeights_amended (fs : List Feature) :
    (∀ nf ∈ normalizeWeights fs, nf.kbn_heatmap_weight ≠ JsNum.posInf) ∧
    ((∀ f ∈ fs, f.doc_count = 0) →
      ∀ nf ∈ normalizeWeights fs, nf.kbn_heatmap_weight = JsNum.nan) := by
  constructor
  · intro nf hnf
    obtain ⟨f, hf, rfl⟩ := List.mem_map.mp hnf
    by_cases hM : collectionMax fs = 0
    · have hf0 : f.doc_count = 0 := by
        have := collectionMax_le fs f hf
        omega
      simp [jsDivNat, hM, hf0]
    · simp [jsDivNat, hM]
  · intro hall nf hnf
    obtain ⟨f, hf, rfl⟩ := List.mem_map.mp hnf
    have hM : collectionMax fs = 0 := by
      rcases collectionMax_cases fs with h0 | ⟨g, hg, hval⟩
      · exact h0
      · rw [hval, hall g hg]
    simp [jsDivNat, hM, hall f hf]

/-! ## C2: normalization with a positive maximum -/

/-- C2: when the collection maximum is positive, every feature's normalized
weight is exactly `doc_count / max`, the feature attaining the maximum gets
weight `1`, every weight is a finite rational in `[0, 1]`, and the maximum
of the empty collection defaults to `0`. -/
theorem normalizeWeights_max_pos (fs : List Feature) (h : 0 < collectionMax fs) :
    normalizeWeights fs = fs.map (fun f =>
      ⟨f.doc_count, JsNum.num ((f.doc_count : ℚ) / (collectionMax fs : ℚ))⟩) ∧
    (∃ nf ∈ normalizeWeights fs, nf.kbn_heatmap_weight = JsNum.num 1) ∧
    (∀ nf ∈ normalizeWeights fs, ∃ q : ℚ,
      nf.kbn_heatmap_weight = JsNum.num q ∧ 0 ≤ q ∧ q ≤ 1) ∧
    collectionMax ([] : List Feature) = 0 := by
  have hM : collectionMax fs ≠ 0 := Nat.pos_iff_ne_zero.mp h
  refine ⟨?_, ?_, ?_, rfl⟩
  · apply List.map_congr_left
    intro f hf
    simp [normalizeWeights, jsDivNat, hM]
  · obtain ⟨f, hf, hval⟩ := collectionMax_attained fs h
    refine ⟨⟨f.doc_count, jsDivNat f.doc_count (collectionMax fs)⟩,
      List.mem_map.mpr ⟨f, hf, rfl⟩, ?_⟩
    have hQ : (collectionMax fs : ℚ) ≠ 0 := Nat.cast_ne_zero.mpr hM
    simp [jsDivNat, hM, hval, div_self hQ]
  · intro nf hnf
    obtain ⟨f, hf, rfl⟩ := List.mem_map.mp hnf
    refine ⟨(f.doc_count : ℚ) / (collectionMax fs : ℚ), by simp [jsDivNat, hM], ?_, ?_⟩
    · positivity
    · rw [div_le_one (by exact_mod_cast h)]
      exact_mod_cast collectionMax_le fs f hf

/-- C2, witness at the two-feature collection with doc counts 1 and 2. -/
theorem normalizeWeights_max_pos_w :
    0 < collectionMax demoFeatures ∧
    (normalizeWeights demoFeatures = demoFeatures.map (fun f =>
      ⟨f.doc_count, JsNum.num ((f.doc_count : ℚ) / (collectionMax demoFeatures : ℚ))⟩) ∧
    (∃ nf ∈ normalizeWeights demoFeatures, nf.kbn_heatmap_weight = JsNum.num 1) ∧
    (∀ nf ∈ normalizeWeights demoFeatures, ∃ q : ℚ,
      nf.kbn_heatmap_weight = JsNum.num q ∧ 0 ≤ q ∧ q ≤ 1) ∧
    collectionMax ([] : List Feature) = 0) :=
  ⟨by decide, normalizeWeights_max_pos demoFeatures (by decide)⟩

/-! ## C3: the precision computation -/

/-- C3, counterexample: the claim says the computed precision is clamped to
the backend's valid precision range. At zoom 21 with refinement delta 1 the
source computes `ZOOM_TO_PRECISION[21] + 1 = 13`, above the maximum valid
precision 12, and differs from the clamped value the spec describes. -/
theorem targetPrecision_not_clamped_cex :
    targetPrecision 21 1 = 13 ∧
    (MAX_GEOHASH_PRECISION : ℤ) < targetPrecision 21 1 ∧
    precisionSpecClamped 21 1 = 12 ∧
    targetPrecision 21 1 ≠ precisionSpecClamped 21 1 := by
  have hr : jsRound 21 = 21 := by norm_num [jsRound]
  have ht : targetPrecision 21 1 = 13 := by
    simp only [targetPrecision, hr]
    decide
  refine ⟨ht, by rw [ht]; decide, ?_, ?_⟩
  · simp only [precisionSpecClamped, ht]
    decide
  · simp only [precisionSpecClamped, ht]
    decide

/-- C3, amended: the precision computation rounds the zoom to the nearest
integer and adds the refinement delta to the table's base precision; the
base-precision lookup is total and clamps an out-of-range zoom to the
nearest defined entry (zoom 0 resp. 21), and every base precision lies in
the backend's valid range `1..12` — but the sum itself is not clamped, so
the final precision can leave the valid range (see the counterexample). -/
theorem targetPrecision_amended (zoom : ℚ) (delta : ℤ) :
    targetPrecision zoom delta = (ZOOM_TO_PRECISION (jsRound zoom) : ℤ) + delta ∧
    (∀ z : ℤ, z ≤ 0 → ZOOM_TO_PRECISION z = ZOOM_TO_PRECISION 0) ∧
    (∀ z : ℤ, 21 ≤ z → ZOOM_TO_PRECISION z = ZOOM_TO_PRECISION 21) ∧
    1 ≤ ZOOM_TO_PRECISION (jsRound zoom) ∧
    ZOOM_TO_PRECISION (jsRound zoom) ≤ MAX_GEOHASH_PRECISION := by
  refine ⟨rfl, ?_, ?_, (ZOOM_TO_PRECISION_bounds _).1, (ZOOM_TO_PRECISION_bounds _).2⟩
  · intro z hz
    have h0 : z.toNat = 0 := by omega
    simp [ZOOM_TO_PRECISION, h0]
  · intro z hz
    have h21 : min z.toNat 21 = 21 := by omega
    simp [ZOOM_TO_PRECISION, h21]

/-! ## C4, C5, C6: the sync decision and its guards -/

/-- The extent trigger, characterized: `updateDueToExtent` is `true` exactly
when no previously fetched extent covers the current one. -/
theorem updateDueToExtent_iff (m : DataMeta) (ext : Extent) :
    updateDueToExtent m ext = true ↔
      ¬ ∃ p, m.buffer = some p ∧ extentContains p ext = true := by
  cases hmb : m.buffer with
  | none => simp [updateDueToExtent, hmb]
  | some p => simp [updateDueToExtent, hmb]

/-- The boolean refetch guard of `syncData`, flattened to a disjunction of
its four triggers. -/
theorem shouldRefetch_iff (m : DataMeta) (df : DataFilters) (ext : Extent) (delta : ℤ) :
    shouldRefetch m df ext delta = true ↔
      (m.precision ≠ some (targetPrecision df.zoom delta) ∨
       m.timeFilters ≠ some df.timeFilters ∨
       (jsTruthyTick df.refreshTimerLastTriggeredAt = true ∧
         m.refreshTimerLastTriggeredAt ≠ df.refreshTimerLastTriggeredAt) ∨
       updateDueToExtent m ext = true) := by
  simp only [shouldRefetch, Bool.not_eq_true', Bool.and_eq_false_iff,
    Bool.not_eq_false', Bool.not_eq_true, beq_iff_eq, beq_eq_false_iff_ne,
    Bool.and_eq_true, ne_eq]
  tauto

/-- C4: with a bounding extent present and a refresh tick that is a real
timestamp (not the falsy number `0`), the refetch decision of `syncData` is
exactly the claim's disjunction — no previous metadata, a precision
difference, a time-range difference, a present-and-different refresh tick,
or a current extent not covered by the previous one — and when the decision
is negative the sync performs no fetch (the cached geometry stays). -/
theorem shouldRefetch_decision (prev : Option DataMeta) (df : DataFilters)
    (ext : Extent) (delta : ℤ) (hb : df.buffer = some ext)
    (ht : df.refreshTimerLastTriggeredAt ≠ some 0) :
    (shouldRefetch (prev.getD emptyMeta) df ext delta = true ↔
      claimRefetch prev df ext delta) ∧
    (shouldRefetch (prev.getD emptyMeta) df ext delta = false →
      ∀ v z : Bool, syncData v z df prev delta = SyncAction.skip) := by
  constructor
  · rw [shouldRefetch_iff]
    cases prev with
    | none =>
      simp [claimRefetch, emptyMeta, updateDueToExtent]
    | some m =>
      rw [updateDueToExtent_iff, jsTruthyTick_eq_isSome df.refreshTimerLastTriggeredAt ht]
      simp only [Option.getD_some, claimRefetch, reduceCtorEq, ne_eq,
        Option.some.injEq, false_or]
      constructor
      · intro h
        exact ⟨m, rfl, by tauto⟩
      · rintro ⟨m2, hm2, h⟩
        cases hm2
        tauto
  · intro hfalse v z
    unfold syncData
    by_cases hv : (!v || !z) = true
    · simp [hv]
    · simp only [hv, if_false, Bool.false_eq_true]
      rw [hb]
      simp [hfalse]

/-- C4, witness: first sync (no previous metadata) at the demo viewport. -/
theorem shouldRefetch_decision_w :
    (shouldRefetch ((none : Option DataMeta).getD emptyMeta) demoDF demoExt 0 = true ↔
      claimRefetch none demoDF demoExt 0) ∧
    (shouldRefetch ((none : Option DataMeta).getD emptyMeta) demoDF demoExt 0 = false →
      ∀ v z : Bool, syncData v z demoDF none 0 = SyncAction.skip) :=
  shouldRefetch_decision none demoDF demoExt 0 rfl (by decide)

/-- A sync whose decision just produced `nextMetadata` decides "no fetch"
against that same viewport: every trigger compares equal, and the extent
covers itself. -/
theorem shouldRefetch_nextMetadata_false (df : DataFilters) (delta : ℤ) (ext : Extent)
    (hb : df.buffer = some ext) :
    shouldRefetch (nextMetadata df delta) df ext delta = false := by
  simp [shouldRefetch, nextMetadata, updateDueToExtent, hb, extentContains_self]

/-- `syncData` returns a fetch exactly when the layer is visible and shown
at the current zoom, a buffer is present, and the refetch guard holds; the
fetched metadata is `nextMetadata`. -/
theorem syncData_eq_fetch_iff (v z : Bool) (df : DataFilters) (prev : Option DataMeta)
    (delta : ℤ) (m : DataMeta) :
    syncData v z df prev delta = SyncAction.fetch m ↔
      v = true ∧ z = true ∧ nextMetadata df delta = m ∧
      ∃ e, df.buffer = some e ∧ shouldRefetch (prev.getD emptyMeta) df e delta = true := by
  unfold syncData
  by_cases hv : (!v || !z) = true
  · rw [if_pos hv]
    have hnvz : ¬(v = true ∧ z = true) := by
      rcases v <;> rcases z <;> simp_all
    simp only [reduceCtorEq, false_iff]
    tauto
  · rw [if_neg hv]
    have hvz : v = true ∧ z = true := by
      rcases v <;> rcases z <;> simp_all
    cases hb : df.buffer with
    | none => simp
    | some ext =>
      by_cases hr : shouldRefetch (prev.getD emptyMeta) df ext delta = true
      · simp [hr, hvz.1, hvz.2]
      · simp [hr, hvz.1, hvz.2]

/-- C5: the refetch decision is idempotent across an accepted fetch — if a
sync fetches with new metadata `m`, a second sync with the identical
viewport state, style delta and previous metadata `m` skips. -/
theorem syncData_idempotent (v z : Bool) (df : DataFilters) (prev : Option DataMeta)
    (delta : ℤ) (m : DataMeta)
    (h : syncData v z df prev delta = SyncAction.fetch m) :
    syncData v z df (some m) delta = SyncAction.skip := by
  obtain ⟨hv, hz, hm, e, hb, -⟩ := (syncData_eq_fetch_iff v z df prev delta m).mp h
  subst hv
  subst hz
  rw [← hm]
  simp [syncData, hb, shouldRefetch_nextMetadata_false df delta e hb]

/-- C5, witness: the first sync at the demo viewport fetches; the second,
against the metadata it produced, skips. -/
theorem syncData_idempotent_w :
    syncData true true demoDF (some (nextMetadata demoDF 0)) 0 = SyncAction.skip :=
  syncData_idempotent true true demoDF none 0 (nextMetadata demoDF 0) rfl

/-- C6: a fetch happens only when the layer is visible, shown at the current
zoom, a bounding extent is available and the refetch decision is positive;
and an absent bounding extent always makes the sync return without
fetching. -/
theorem syncData_fetch_guard (v z : Bool) (df : DataFilters)
    (prev : Option DataMeta) (delta : ℤ) :
    (∀ m, syncData v z df prev delta = SyncAction.fetch m →
      v = true ∧ z = true ∧
      (∃ e, df.buffer = some e ∧
        shouldRefetch (prev.getD emptyMeta) df e delta = true) ∧
      m = nextMetadata df delta) ∧
    (df.buffer = none → syncData v z df prev delta = SyncAction.skip) := by
  constructor
  · intro m h
    obtain ⟨hv, hz, hm, hex⟩ := (syncData_eq_fetch_iff v z df prev delta m).mp h
    exact ⟨hv, hz, hex, hm.symm⟩
  · intro hb
    unfold syncData
    rcases v <;> rcases z <;> simp [hb]

/-! ## C7: shape of the aggregation query -/

/-- C7: for every precision, extent and time range, the built aggregation
request has exactly two aggregation specs — the count metric and the
geohash-grid bucket with collar filtering disabled, geocentroid enabled,
auto-precision disabled and the caller's precision — and the installed
filter list holds exactly the spatial extent filter and the time filter,
conjoined (search-source filters combine conjunctively). -/
theorem makeAggConfigs_query_shape (geoField : String) (precision : ℤ)
    (extent : Extent) (fieldType ipTitle : String) (tf : TimeFilters) :
    (makeAggConfigs geoField precision).length = 2 ∧
    (∃ metric grid,
      makeAggConfigs geoField precision = [metric, grid] ∧
      metric.type = "count" ∧ metric.schema = "metric" ∧ metric.params = none ∧
      grid.type = "geohash_grid" ∧ grid.schema = "segment" ∧
      ∃ gp, grid.params = some gp ∧
        gp.field = geoField ∧ gp.isFilteredByCollar = false ∧
        gp.useGeocentroid = true ∧ gp.autoPrecision = false ∧
        gp.precision = precision) ∧
    (searchFilters extent geoField fieldType ipTitle tf).length = 2 ∧
    QueryFilter.extentFilter extent geoField fieldType ∈
      searchFilters extent geoField fieldType ipTitle tf ∧
    QueryFilter.timeFilter ipTitle tf ∈
      searchFilters extent geoField fieldType ipTitle tf := by
  refine ⟨rfl, ⟨_, _, rfl, rfl, rfl, rfl, rfl, rfl, ⟨_, rfl, rfl, rfl, rfl, rfl, rfl⟩⟩,
    rfl, ?_, ?_⟩
  · simp [searchFilters]
  · simp [searchFilters]

/-! ## C8, C9: error surfacing -/

/-- C8, counterexample: a failure thrown inside the fetch's `try` block
before the inspection sink's `start` call (here: search-source setup with
underlying message "ctor failed") is surfaced to `onLoadError` with the
`TypeError` message from the undefined `inspectorRequest` dereference —
a message that is not the wrapped query-execution message for that
underlying error and names none of the three stages, refuting "every fetch
failure is surfaced as an error whose message names the failing stage". -/
theorem fetchNewData_stage_message_cex :
    fetchNewData demoDesc 2 demoExt demoTF "demo layer" demoEnvSetupFail =
      LoadResult.onLoadError undefinedInspectorRequestMessage ∧
    undefinedInspectorRequestMessage ≠ searchFailedMessage "ctor failed" ∧
    undefinedInspectorRequestMessage ≠ indexPatternErrorMessage demoDesc ∧
    undefinedInspectorRequestMessage ≠ geoFieldErrorMessage demoDesc demoIP := by
  exact ⟨rfl, by decide, by decide, by decide⟩

/-- C8 (amended): every fetch failure is delivered to the caller's
`onLoadError` channel with `error.message`, never thrown unguarded; the
three named stages produce their stage-naming messages (index-pattern
lookup names the index pattern id, field lookup names the index pattern
title and the geo field, query execution wraps the backend message) — but a
failure thrown before the inspection sink's `start` call has assigned
`inspectorRequest` is surfaced with the `TypeError` message of the
undefined dereference instead of a stage-naming message. -/
theorem fetchNewData_error_channel (desc : SourceDescriptor) (p : ℤ) (b : Extent)
    (tf : TimeFilters) (ln : String) (env : SourceEnv) :
    (∀ e, (getGeoJsonPointsWithTotalCount desc (heatmapFetchArgs p b tf ln) env).1 =
        FetchOutcome.failure e →
      fetchNewData desc p b tf ln env = LoadResult.onLoadError e.message) ∧
    (env.indexPatternLookup = none →
      fetchNewData desc p b tf ln env =
        LoadResult.onLoadError (indexPatternErrorMessage desc)) ∧
    (∀ ip, env.indexPatternLookup = some ip → desc.geoField ∉ ip.fieldNames →
      fetchNewData desc p b tf ln env =
        LoadResult.onLoadError (geoFieldErrorMessage desc ip)) ∧
    (∀ ip msg, env.indexPatternLookup = some ip → desc.geoField ∈ ip.fieldNames →
      env.searchSourceSetupError = none → env.fetchError = some msg →
      fetchNewData desc p b tf ln env =
        LoadResult.onLoadError (searchFailedMessage msg)) ∧
    (∀ ip m, env.indexPatternLookup = some ip → desc.geoField ∈ ip.fieldNames →
      env.searchSourceSetupError = some m →
      fetchNewData desc p b tf ln env =
        LoadResult.onLoadError undefinedInspectorRequestMessage) := by
  refine ⟨?_, ?_, ?_, ?_, ?_⟩
  · intro e he
    unfold fetchNewData
    rw [he]
  · intro h1
    simp [fetchNewData, getGeoJsonPointsWithTotalCount, h1, JsError.message]
  · intro ip h1 h2
    simp [fetchNewData, getGeoJsonPointsWithTotalCount, h1, h2, JsError.message]
  · intro ip msg h1 h2 h3 h4
    simp [fetchNewData, getGeoJsonPointsWithTotalCount, h1, h2, h3, h4, JsError.message]
  · intro ip m h1 h2 h3
    simp [fetchNewData, getGeoJsonPointsWithTotalCount, h1, h2, h3, JsError.message]

/-- C9: when some step of the `try` block throws before `inspectorRequest`
is assigned (search-source setup), the `catch` handler's dereference of the
still-undefined `inspectorRequest` raises a `TypeError`, so the call's
outcome is that `TypeError` — and for no backend message is the wrapped
"Elasticsearch search request failed" error the one surfaced. -/
theorem inspectorRequest_undefined_typeerror (desc : SourceDescriptor)
    (args : GeoJsonRequestArgs) (env : SourceEnv) (ip : IndexPattern)
    (h1 : env.indexPatternLookup = some ip) (h2 : desc.geoField ∈ ip.fieldNames)
    (h3 : ∃ m, env.searchSourceSetupError = some m) :
    (getGeoJsonPointsWithTotalCount desc args env).1 =
      FetchOutcome.failure (JsError.typeError undefinedInspectorRequestMessage) ∧
    ∀ s, (getGeoJsonPointsWithTotalCount desc args env).1 ≠
      FetchOutcome.failure (JsError.jsError (searchFailedMessage s)) := by
  obtain ⟨m, hm⟩ := h3
  constructor
  · simp [getGeoJsonPointsWithTotalCount, h1, h2, hm]
  · intro s
    simp [getGeoJsonPointsWithTotalCount, h1, h2, hm]

/-- C9, witness at the demo descriptor and setup-failure environment. -/
theorem inspectorRequest_undefined_typeerror_w :
    ((getGeoJsonPointsWithTotalCount demoDesc
        (heatmapFetchArgs 2 demoExt demoTF "demo layer") demoEnvSetupFail).1 =
      FetchOutcome.failure (JsError.typeError undefinedInspectorRequestMessage)) ∧
    ∀ s, (getGeoJsonPointsWithTotalCount demoDesc
        (heatmapFetchArgs 2 demoExt demoTF "demo layer") demoEnvSetupFail).1 ≠
      FetchOutcome.failure (JsError.jsError (searchFailedMessage s)) :=
  inspectorRequest_undefined_typeerror demoDesc
    (heatmapFetchArgs 2 demoExt demoTF "demo layer") demoEnvSetupFail demoIP rfl
    (by decide) ⟨"ctor failed", rfl⟩

/-! ## C10: the omitted layer id -/

/-- C10: the heatmap layer's fetch builds its argument object without a
`layerId` key, so in every environment the inspection sink's `resetRequest`
is invoked with an undefined layer id, and no `resetRequest` or `start`
call in the trace ever carries a defined layer id. -/
theorem fetch_omits_layerId (p : ℤ) (b : Extent) (tf : TimeFilters) (ln : String)
    (desc : SourceDescriptor) (env : SourceEnv) :
    (heatmapFetchArgs p b tf ln).layerId = none ∧
    SinkCall.resetRequest none ∈
      (getGeoJsonPointsWithTotalCount desc (heatmapFetchArgs p b tf ln) env).2 ∧
    (∀ lid : String, SinkCall.resetRequest (some lid) ∉
      (getGeoJsonPointsWithTotalCount desc (heatmapFetchArgs p b tf ln) env).2) ∧
    (∀ lid ln2 : String, SinkCall.startCall (some lid) ln2 ∉
      (getGeoJsonPointsWithTotalCount desc (heatmapFetchArgs p b tf ln) env).2) := by
  obtain ⟨ipl, sse, fe, rf⟩ := env
  refine ⟨rfl, ?_, ?_, ?_⟩ <;>
  · cases ipl with
    | none => simp [getGeoJsonPointsWithTotalCount, heatmapFetchArgs]
    | some ip =>
      by_cases hg : desc.geoField ∈ ip.fieldNames <;>
        cases sse <;> cases fe <;>
          simp [getGeoJsonPointsWithTotalCount, heatmapFetchArgs, hg]
